import Mathlib

/-!
Verification of the authentication and session-lifecycle subsystem of the
zedslab/starter repository, shallowly embedded in Lean 4.

The embedding follows the JavaScript sources:
  backend/models/common/User.js      (user schema, lockout state machine,
                                      password history, toJSON transform)
  backend/config/security.js         (CSRF protection middleware)
  backend/middleware/auth.js         (JWT authentication middleware)
  frontend composables auth docs     (single-flight refresh pattern)

Timestamps are modelled as integers (milliseconds since the epoch, as
returned by Date.now()).  JavaScript truthiness of optional strings is
modelled explicitly: a missing value and the empty string are both falsy.
-/

namespace Starter

/-- UserDoc mirrors the mongoose user schema of User.js field by field.
Optional schema fields are Option; Map fields are association lists;
ObjectId references are strings.  The transient plain-text field
password (not part of the schema, consumed by the pre-save hook) and the
mongoose version key vKey (serialized as __v) are included because the
pre-save hook and the toJSON transform read them. -/
structure UserDoc where
  id : Nat
  firstName : String
  lastName : String
  fullName : Option String
  email : String
  username : String
  passwordHash : Option String
  passwordSalt : Option String
  roles : List String
  ministryId : Option String
  phone : Option String
  title : Option String
  employeeId : Option String
  isActive : Bool
  isEmailVerified : Bool
  isLocked : Bool
  lockUntil : Option Int
  lockReason : Option String
  loginAttempts : Nat
  failedLoginAttempts : Nat
  lastLogin : Option Int
  loginCount : Nat
  lastPasswordChange : Int
  passwordHistory : List String
  bio : Option String
  avatar : Option String
  preferences : List (String × String)
  twoFactorEnabled : Bool
  twoFactorSecret : Option String
  ssoProvider : Option String
  ssoId : Option String
  createdBy : Option String
  updatedBy : Option String
  metadata : List (String × String)
  createdAt : Int
  updatedAt : Int
  password : Option String
  vKey : Nat
deriving DecidableEq

/-- Default of parseInt(process.env.MAX_LOGIN_ATTEMPTS or 5). -/
def defaultMaxLoginAttempts : Nat := 5

/-- Default of parseInt(process.env.LOCKOUT_TIME or 900000), 15 minutes in
milliseconds. -/
def defaultLockoutTime : Nat := 900000

/-- incrementLoginAttempts from User.js: increments loginAttempts and
failedLoginAttempts, then, if failedLoginAttempts has reached maxAttempts,
sets isLocked, lockUntil = now + lockTime and lockReason.  The database
save is the returned document. -/
def incrementLoginAttempts (now : Int) (maxAttempts lockTime : Nat)
    (u : UserDoc) : UserDoc :=
  let u1 := { u with
    loginAttempts := u.loginAttempts + 1,
    failedLoginAttempts := u.failedLoginAttempts + 1 }
  if u1.failedLoginAttempts ≥ maxAttempts then
    { u1 with
      isLocked := true,
      lockUntil := some (now + (lockTime : Int)),
      lockReason := some "Too many failed login attempts" }
  else
    u1

/-- resetLoginAttempts from User.js: zeroes both counters, clears the lock
fields, stamps lastLogin and bumps loginCount. -/
def resetLoginAttempts (now : Int) (u : UserDoc) : UserDoc :=
  { u with
    loginAttempts := 0,
    failedLoginAttempts := 0,
    isLocked := false,
    lockUntil := none,
    lockReason := none,
    lastLogin := some now,
    loginCount := u.loginCount + 1 }

/-- isAccountLocked from User.js: isLocked and lockUntil and
lockUntil > Date.now().  A Date object is always truthy in JavaScript, so
the middle conjunct only tests that lockUntil is set. -/
def isAccountLocked (now : Int) (u : UserDoc) : Bool :=
  u.isLocked && (match u.lockUntil with
    | some t => decide (now < t)
    | none => false)

/-- failSequence folds incrementLoginAttempts over a list of attempt
timestamps: one consecutive failed login per list element. -/
def failSequence (maxAttempts lockTime : Nat) (ts : List Int)
    (u : UserDoc) : UserDoc :=
  ts.foldl (fun v t => incrementLoginAttempts t maxAttempts lockTime v) u

/-- A concrete fresh user document used for concrete evaluations: no
failed attempts, unlocked. -/
def freshUser : UserDoc where
  id := 1
  firstName := "Ada"
  lastName := "Lovelace"
  fullName := some "Ada Lovelace"
  email := "ada@example.com"
  username := "ada"
  passwordHash := some "hash0"
  passwordSalt := some "salt0"
  roles := ["USER"]
  ministryId := none
  phone := none
  title := none
  employeeId := none
  isActive := true
  isEmailVerified := true
  isLocked := false
  lockUntil := none
  lockReason := none
  loginAttempts := 0
  failedLoginAttempts := 0
  lastLogin := none
  loginCount := 0
  lastPasswordChange := 0
  passwordHistory := []
  bio := none
  avatar := none
  preferences := []
  twoFactorEnabled := false
  twoFactorSecret := none
  ssoProvider := none
  ssoId := none
  createdBy := none
  updatedBy := none
  metadata := []
  createdAt := 0
  updatedAt := 0
  password := none
  vKey := 0

theorem incrementLoginAttempts_failed (now : Int) (m l : Nat) (u : UserDoc) :
    (incrementLoginAttempts now m l u).failedLoginAttempts =
      u.failedLoginAttempts + 1 := by
  unfold incrementLoginAttempts
  dsimp only
  split <;> rfl

theorem incrementLoginAttempts_below (now : Int) (m l : Nat) (u : UserDoc)
    (h : u.failedLoginAttempts + 1 < m) :
    (incrementLoginAttempts now m l u).isLocked = u.isLocked ∧
    (incrementLoginAttempts now m l u).lockUntil = u.lockUntil := by
  unfold incrementLoginAttempts
  dsimp only
  rw [if_neg (by omega)]
  exact ⟨rfl, rfl⟩

theorem failSequence_failed (m l : Nat) (ts : List Int) (u : UserDoc) :
    (failSequence m l ts u).failedLoginAttempts =
      u.failedLoginAttempts + ts.length := by
  induction ts generalizing u with
  | nil => rfl
  | cons t ts ih =>
      show (failSequence m l ts (incrementLoginAttempts t m l u)).failedLoginAttempts = _
      rw [ih, incrementLoginAttempts_failed]
      simp only [List.length_cons]
      omega

theorem failSequence_unlocked (m l : Nat) (ts : List Int) (u : UserDoc)
    (hu : u.isLocked = false)
    (hlt : u.failedLoginAttempts + ts.length < m) :
    (failSequence m l ts u).isLocked = false := by
  induction ts generalizing u with
  | nil => exact hu
  | cons t ts ih =>
      show (failSequence m l ts (incrementLoginAttempts t m l u)).isLocked = false
      have hstep := incrementLoginAttempts_below t m l u (by
        simp only [List.length_cons] at hlt; omega)
      apply ih
      · rw [hstep.1, hu]
      · rw [incrementLoginAttempts_failed]
        simp only [List.length_cons] at hlt
        omega

theorem incrementLoginAttempts_reach (now : Int) (m l : Nat) (u : UserDoc)
    (h : m ≤ u.failedLoginAttempts + 1) :
    (incrementLoginAttempts now m l u).isLocked = true ∧
    (incrementLoginAttempts now m l u).lockUntil = some (now + (l : Int)) := by
  unfold incrementLoginAttempts
  dsimp only
  rw [if_pos (by omega)]
  exact ⟨rfl, rfl⟩

/-- C3 (counterexample): with the default threshold 5, N = threshold − 1 = 4,
a fresh user after exactly N consecutive failed attempts is still unlocked,
so the Nth failure does not lock the account as the claim states. -/
theorem lockout_fourth_failure_does_not_lock :
    (failSequence 5 900000 [0, 0, 0, 0] freshUser).isLocked = false ∧
    (failSequence 5 900000 [0, 0, 0, 0] freshUser).lockUntil = none := by
  exact ⟨rfl, rfl⟩

/-- C3 (amended): for every user starting unlocked with zero failed
attempts, any sequence of threshold − 1 consecutive failed attempts leaves
the account unlocked, and the following failure — the one whose increment
reaches the threshold — locks it, setting isLocked and
lockUntil = now + lockDuration. -/
theorem lockout_threshold_locks (m l : Nat) (ts : List Int) (now : Int)
    (u : UserDoc) (hm : 1 ≤ m) (h0 : u.failedLoginAttempts = 0)
    (hu : u.isLocked = false) (hlen : ts.length = m - 1) :
    (failSequence m l ts u).isLocked = false ∧
    (incrementLoginAttempts now m l (failSequence m l ts u)).isLocked = true ∧
    (incrementLoginAttempts now m l (failSequence m l ts u)).lockUntil =
      some (now + (l : Int)) := by
  have hfail := failSequence_failed m l ts u
  have hreach := incrementLoginAttempts_reach now m l (failSequence m l ts u)
    (by omega)
  exact ⟨failSequence_unlocked m l ts u hu (by omega), hreach.1, hreach.2⟩

theorem lockout_threshold_locks_witness :
    (failSequence 5 900000 [1, 2, 3, 4] freshUser).isLocked = false ∧
    (incrementLoginAttempts 10 5 900000
      (failSequence 5 900000 [1, 2, 3, 4] freshUser)).isLocked = true ∧
    (incrementLoginAttempts 10 5 900000
      (failSequence 5 900000 [1, 2, 3, 4] freshUser)).lockUntil =
      some (10 + ((900000 : Nat) : Int)) :=
  lockout_threshold_locks 5 900000 [1, 2, 3, 4] 10 freshUser
    (by decide) rfl rfl rfl

/-- jsTruthyStr models JavaScript truthiness of an optional string value:
undefined, null and the empty string are falsy. -/
def jsTruthyStr : Option String → Bool
  | none => false
  | some s => !(s == "")

/-- shiftIfFull models the first step of the history handling in the
pre-save hook of User.js: shift (drop the oldest entry) when the history
already holds 5 or more entries. -/
def shiftIfFull (hist : List String) : List String :=
  if hist.length ≥ 5 then hist.tail else hist

/-- nextPasswordHistory mirrors the history handling inside the pre-save
hook of User.js: shift when the history already holds 5 or more entries,
then push the current passwordHash when it is truthy. -/
def nextPasswordHistory (currentHash : Option String)
    (hist : List String) : List String :=
  let hist1 := shiftIfFull hist
  match currentHash with
  | some h => if h = "" then hist1 else hist1 ++ [h]
  | none => hist1

/-- preSaveHook mirrors the pre-save hook of User.js.  The bcrypt salt and
hash are inputs (the library call is external), the isModified flags are
inputs from mongoose change tracking, and now is Date.now(). -/
def preSaveHook (isModifiedName isModifiedPassword : Bool)
    (salt hash : String) (now : Int) (u : UserDoc) : UserDoc :=
  let u1 := if isModifiedName then
      { u with fullName := some ((u.firstName ++ " " ++ u.lastName).trim) }
    else u
  if jsTruthyStr u1.password && isModifiedPassword then
    { u1 with
      passwordHistory := nextPasswordHistory u1.passwordHash u1.passwordHistory,
      passwordHash := some hash,
      passwordSalt := some salt,
      lastPasswordChange := now,
      password := none }
  else u1

theorem shiftIfFull_length (hist : List String) (h : hist.length ≤ 5) :
    (shiftIfFull hist).length ≤ 4 := by
  unfold shiftIfFull
  split
  · simp only [List.length_tail]; omega
  · omega

theorem nextPasswordHistory_length (c : Option String) (hist : List String)
    (hlen : hist.length ≤ 5) :
    (nextPasswordHistory c hist).length ≤ 5 := by
  have hs := shiftIfFull_length hist hlen
  unfold nextPasswordHistory
  cases c with
  | none => dsimp only; omega
  | some h =>
      dsimp only
      split
      · omega
      · simp only [List.length_append, List.length_cons, List.length_nil]
        omega

theorem nextPasswordHistory_evicts (h : String) (hist : List String)
    (hfull : hist.length = 5) (hne : h ≠ "") :
    nextPasswordHistory (some h) hist = hist.tail ++ [h] := by
  unfold nextPasswordHistory
  dsimp only
  rw [if_neg hne]
  unfold shiftIfFull
  rw [if_pos (by omega)]

theorem preSaveHook_history (mn : Bool) (salt hash : String) (now : Int)
    (u : UserDoc) (hp : jsTruthyStr u.password = true) :
    (preSaveHook mn true salt hash now u).passwordHistory =
      nextPasswordHistory u.passwordHash u.passwordHistory := by
  unfold preSaveHook
  cases mn <;> simp [hp]

/-- C8 (confirmed): if the stored password history holds at most 5 entries,
saving a password change keeps it at most 5 entries; when it already holds
exactly 5 entries the oldest is dropped and the superseded hash appended. -/
theorem password_history_bounded (mn : Bool) (salt hash : String)
    (now : Int) (u : UserDoc) (hp : jsTruthyStr u.password = true)
    (hlen : u.passwordHistory.length ≤ 5) :
    (preSaveHook mn true salt hash now u).passwordHistory.length ≤ 5 ∧
    (∀ h, u.passwordHistory.length = 5 → u.passwordHash = some h →
      h ≠ "" →
      (preSaveHook mn true salt hash now u).passwordHistory =
        u.passwordHistory.tail ++ [h]) := by
  rw [preSaveHook_history mn salt hash now u hp]
  refine ⟨nextPasswordHistory_length _ _ hlen, ?_⟩
  intro h hfull hhash hne
  rw [hhash]
  exact nextPasswordHistory_evicts h u.passwordHistory hfull hne

/-- changingUser is freshUser in the middle of a password change with a
full history, used to evaluate the pre-save hook concretely. -/
def changingUser : UserDoc :=
  { freshUser with
    password := some "NewPassw0rd",
    passwordHistory := ["h1", "h2", "h3", "h4", "h5"] }

theorem password_history_bounded_witness :
    (preSaveHook false true "s9" "h9" 77 changingUser).passwordHistory.length ≤ 5 ∧
    (preSaveHook false true "s9" "h9" 77 changingUser).passwordHistory =
      ["h2", "h3", "h4", "h5", "hash0"] := by
  have hmain := password_history_bounded false "s9" "h9" 77 changingUser
    (by decide) (by decide)
  refine ⟨hmain.1, ?_⟩
  have hev := hmain.2 "hash0" (by decide) rfl (by decide)
  rw [hev]
  rfl

/-- SerializedUser is the shape of a user document after the toJSON
transform of User.js, which deletes passwordHash, passwordSalt,
passwordHistory, twoFactorSecret and the version key __v before the
document is serialized in any response. -/
structure SerializedUser where
  id : Nat
  firstName : String
  lastName : String
  fullName : Option String
  email : String
  username : String
  roles : List String
  ministryId : Option String
  phone : Option String
  title : Option String
  employeeId : Option String
  isActive : Bool
  isEmailVerified : Bool
  isLocked : Bool
  lockUntil : Option Int
  lockReason : Option String
  loginAttempts : Nat
  failedLoginAttempts : Nat
  lastLogin : Option Int
  loginCount : Nat
  lastPasswordChange : Int
  bio : Option String
  avatar : Option String
  preferences : List (String × String)
  twoFactorEnabled : Bool
  ssoProvider : Option String
  ssoId : Option String
  createdBy : Option String
  updatedBy : Option String
  metadata : List (String × String)
  createdAt : Int
  updatedAt : Int
deriving DecidableEq

/-- userToJSON applies the toJSON transform: every schema field is copied
except the four secret fields and __v, which are deleted. -/
def userToJSON (u : UserDoc) : SerializedUser where
  id := u.id
  firstName := u.firstName
  lastName := u.lastName
  fullName := u.fullName
  email := u.email
  username := u.username
  roles := u.roles
  ministryId := u.ministryId
  phone := u.phone
  title := u.title
  employeeId := u.employeeId
  isActive := u.isActive
  isEmailVerified := u.isEmailVerified
  isLocked := u.isLocked
  lockUntil := u.lockUntil
  lockReason := u.lockReason
  loginAttempts := u.loginAttempts
  failedLoginAttempts := u.failedLoginAttempts
  lastLogin := u.lastLogin
  loginCount := u.loginCount
  lastPasswordChange := u.lastPasswordChange
  bio := u.bio
  avatar := u.avatar
  preferences := u.preferences
  twoFactorEnabled := u.twoFactorEnabled
  ssoProvider := u.ssoProvider
  ssoId := u.ssoId
  createdBy := u.createdBy
  updatedBy := u.updatedBy
  metadata := u.metadata
  createdAt := u.createdAt
  updatedAt := u.updatedAt

/-- C10 (confirmed): two user documents that differ only in passwordHash,
passwordSalt, passwordHistory or twoFactorSecret serialize to the same
output; the transform removes those fields, so they never appear in a
serialized user. -/
theorem serialization_independent_of_secrets (u : UserDoc)
    (h s : Option String) (hist : List String) (t : Option String) :
    userToJSON { u with
      passwordHash := h,
      passwordSalt := s,
      passwordHistory := hist,
      twoFactorSecret := t } = userToJSON u := rfl

/-- C4 (confirmed): whenever lockUntil lies in the past, isAccountLocked
evaluates to false, regardless of the isLocked flag and before any write
has cleared the lock fields. -/
theorem lazy_unlock_past_lockUntil (u : UserDoc) (t now : Int)
    (ht : u.lockUntil = some t) (hpast : t ≤ now) :
    isAccountLocked now u = false := by
  unfold isAccountLocked
  rw [ht]
  have hdec : decide (now < t) = false := decide_eq_false (by omega)
  simp [hdec]

theorem lazy_unlock_past_lockUntil_witness :
    isAccountLocked 100
      { freshUser with isLocked := true, lockUntil := some 50 } = false :=
  lazy_unlock_past_lockUntil
    { freshUser with isLocked := true, lockUntil := some 50 } 50 100 rfl
    (by decide)

/-- C5 (confirmed): resetLoginAttempts zeroes failedLoginAttempts (and
loginAttempts) and clears every lock field, whatever the prior state. -/
theorem successful_login_resets (now : Int) (u : UserDoc) :
    (resetLoginAttempts now u).failedLoginAttempts = 0 ∧
    (resetLoginAttempts now u).loginAttempts = 0 ∧
    (resetLoginAttempts now u).isLocked = false ∧
    (resetLoginAttempts now u).lockUntil = none ∧
    (resetLoginAttempts now u).lockReason = none :=
  ⟨rfl, rfl, rfl, rfl, rfl⟩

/-- safeMethods is the list of side-effect-free methods skipped by the
CSRF middleware in security.js. -/
def safeMethods : List String := ["GET", "HEAD", "OPTIONS"]

/-- skipPaths is the skipPaths array of security.js csrfProtection. -/
def skipPaths : List String :=
  ["/api/auth/login", "/api/auth/register", "/api/auth/refresh",
   "/api/auth/google", "/api/auth/microsoft", "/api/auth/github",
   "/api/logs/siem", "/api/health"]

/-- jsTruthyBytes models JavaScript truthiness of an optional token value
carried as a byte string: undefined, null and the empty string are falsy. -/
def jsTruthyBytes : Option (List Nat) → Option (List Nat)
  | none => none
  | some b => if b.isEmpty then none else some b

/-- timingSafeEqual models Node crypto.timingSafeEqual on two byte
buffers: it throws (here, Except.error) when the buffer lengths differ and
otherwise reports byte equality.  The constant-time execution property
itself is a timing property outside a functional embedding; the
input-output behaviour is what is modelled. -/
def timingSafeEqual (a b : List Nat) : Except Unit Bool :=
  if a.length = b.length then Except.ok (a == b) else Except.error ()

/-- SessionData is the slice of the Express session state the CSRF guard
reads: the stored csrfToken, if any. -/
structure SessionData where
  csrfToken : Option (List Nat)
deriving DecidableEq

/-- CsrfRequest is the slice of an Express request read by
csrfProtection: method, path, the x-csrf-token header, the _csrf body
field and the session. -/
structure CsrfRequest where
  method : String
  path : String
  headerCsrf : Option (List Nat)
  bodyCsrf : Option (List Nat)
  session : Option SessionData
deriving DecidableEq

/-- CsrfOutcome is what the middleware does with a request: pass it on
(next), reject it with a 403 body message, or raise an uncaught
exception. -/
inductive CsrfOutcome where
  | next
  | forbidden (message : String)
  | exception
deriving DecidableEq

/-- startsWithModel models the JavaScript String.startsWith used on
request paths, as a character-list prefix test (the builtin
String.startsWith is byte-position based and does not reduce in the
kernel; on these ASCII paths the two agree). -/
def startsWithModel (s p : String) : Bool := p.data.isPrefixOf s.data

/-- effectiveCsrfToken models the line
csrfToken = req.headers x-csrf-token or req.body._csrf, with JavaScript
or-semantics: the header wins when truthy, otherwise the body field. -/
def effectiveCsrfToken (req : CsrfRequest) : Option (List Nat) :=
  match jsTruthyBytes req.headerCsrf with
  | some t => some t
  | none => jsTruthyBytes req.bodyCsrf

/-- csrfProtection mirrors Security.csrfProtection of security.js:
skip safe methods, skip the configured path list, then require a session,
require both tokens truthy, and compare them with timingSafeEqual. -/
def csrfProtection (req : CsrfRequest) : CsrfOutcome :=
  if safeMethods.contains req.method then CsrfOutcome.next
  else if skipPaths.any (fun p => startsWithModel req.path p) then CsrfOutcome.next
  else
    match req.session with
    | none => CsrfOutcome.forbidden "Session required for CSRF protection"
    | some sess =>
      match effectiveCsrfToken req, jsTruthyBytes sess.csrfToken with
      | some c, some s =>
        match timingSafeEqual c s with
        | Except.error _ => CsrfOutcome.exception
        | Except.ok true => CsrfOutcome.next
        | Except.ok false => CsrfOutcome.forbidden "Invalid CSRF token"
      | _, _ => CsrfOutcome.forbidden "CSRF token required"

/-- claimedEntryPointPaths is stated from the claim wording, not from the
source: the entry-point allow-list the claim enumerates (login,
registration, token refresh, federated-login callbacks), kept for
comparison with the skipPaths list the code actually configures. -/
def claimedEntryPointPaths : List String :=
  ["/api/auth/login", "/api/auth/register", "/api/auth/refresh",
   "/api/auth/google", "/api/auth/microsoft", "/api/auth/github"]

/-- healthPost is a state-changing request to the health endpoint with no
session and no tokens. -/
def healthPost : CsrfRequest where
  method := "POST"
  path := "/api/health"
  headerCsrf := none
  bodyCsrf := none
  session := none

/-- C6 (counterexample): a POST to /api/health is passed through with no
validation although its method is not side-effect-free, its path is not
on the entry-point list the claim enumerates, and no session exists — the
claim would require a 403 here. -/
theorem csrf_guard_passes_unlisted_path :
    csrfProtection healthPost = CsrfOutcome.next ∧
    safeMethods.contains healthPost.method = false ∧
    claimedEntryPointPaths.any (fun p => startsWithModel healthPost.path p) = false ∧
    healthPost.session = none := by decide

theorem csrfProtection_safe (req : CsrfRequest)
    (hm : safeMethods.contains req.method = true) :
    csrfProtection req = CsrfOutcome.next := by
  unfold csrfProtection
  rw [if_pos hm]

theorem csrfProtection_skip (req : CsrfRequest)
    (hm : ¬ safeMethods.contains req.method = true)
    (hp : skipPaths.any (fun p => startsWithModel req.path p) = true) :
    csrfProtection req = CsrfOutcome.next := by
  unfold csrfProtection
  rw [if_neg hm, if_pos hp]

theorem csrfProtection_noSession (req : CsrfRequest)
    (hm : ¬ safeMethods.contains req.method = true)
    (hp : ¬ skipPaths.any (fun p => startsWithModel req.path p) = true)
    (hs : req.session = none) :
    csrfProtection req =
      CsrfOutcome.forbidden "Session required for CSRF protection" := by
  unfold csrfProtection
  rw [if_neg hm, if_neg hp, hs]

theorem csrfProtection_tokens (req : CsrfRequest) (sess : SessionData)
    (c s : List Nat)
    (hm : ¬ safeMethods.contains req.method = true)
    (hp : ¬ skipPaths.any (fun p => startsWithModel req.path p) = true)
    (hs : req.session = some sess)
    (hc : effectiveCsrfToken req = some c)
    (hst : jsTruthyBytes sess.csrfToken = some s) :
    csrfProtection req = (match timingSafeEqual c s with
      | Except.error _ => CsrfOutcome.exception
      | Except.ok true => CsrfOutcome.next
      | Except.ok false => CsrfOutcome.forbidden "Invalid CSRF token") := by
  unfold csrfProtection
  rw [if_neg hm, if_neg hp, hs]
  dsimp only
  rw [hc, hst]

/-- C6 (amended): the guard passes a request with no validation iff its
method is side-effect-free or its path starts with one of the configured
skip paths (which include the SIEM log and health endpoints besides the
authentication entry points); every other pass-through requires a session
whose stored token is truthy and equal to the supplied token; and a token
of the same length that differs from the one stored on the session — in
particular one issued for a different session — is rejected with the 403
mismatch body. -/
theorem csrf_guard_characterization (req : CsrfRequest) :
    (csrfProtection req = CsrfOutcome.next ↔
      safeMethods.contains req.method = true ∨
      skipPaths.any (fun p => startsWithModel req.path p) = true ∨
      (∃ sess tok, req.session = some sess ∧
        effectiveCsrfToken req = some tok ∧
        jsTruthyBytes sess.csrfToken = some tok)) ∧
    (∀ sess c s, req.session = some sess →
      safeMethods.contains req.method = false →
      skipPaths.any (fun p => startsWithModel req.path p) = false →
      effectiveCsrfToken req = some c →
      jsTruthyBytes sess.csrfToken = some s →
      c.length = s.length → c ≠ s →
      csrfProtection req = CsrfOutcome.forbidden "Invalid CSRF token") := by
  constructor
  · by_cases hm : safeMethods.contains req.method = true
    · rw [csrfProtection_safe req hm]
      exact ⟨fun _ => Or.inl hm, fun _ => rfl⟩
    · by_cases hp : skipPaths.any (fun p => startsWithModel req.path p) = true
      · rw [csrfProtection_skip req hm hp]
        exact ⟨fun _ => Or.inr (Or.inl hp), fun _ => rfl⟩
      · cases hs : req.session with
        | none =>
            rw [csrfProtection_noSession req hm hp hs]
            constructor
            · intro h; exact CsrfOutcome.noConfusion h
            · rintro (h | h | ⟨sess, tok, hsess, -, -⟩)
              · exact absurd h hm
              · exact absurd h hp
              · exact Option.noConfusion hsess
        | some sess =>
            cases hc : effectiveCsrfToken req with
            | none =>
                have heval : csrfProtection req =
                    CsrfOutcome.forbidden "CSRF token required" := by
                  unfold csrfProtection
                  rw [if_neg hm, if_neg hp, hs]
                  dsimp only
                  rw [hc]
                rw [heval]
                constructor
                · intro h; exact CsrfOutcome.noConfusion h
                · rintro (h | h | ⟨sess2, tok, hsess, htok, hstok⟩)
                  · exact absurd h hm
                  · exact absurd h hp
                  · exact Option.noConfusion htok
            | some c =>
                cases hst : jsTruthyBytes sess.csrfToken with
                | none =>
                    have heval : csrfProtection req =
                        CsrfOutcome.forbidden "CSRF token required" := by
                      unfold csrfProtection
                      rw [if_neg hm, if_neg hp, hs]
                      dsimp only
                      rw [hc, hst]
                    rw [heval]
                    constructor
                    · intro h; exact CsrfOutcome.noConfusion h
                    · rintro (h | h | ⟨sess2, tok, hsess, htok, hstok⟩)
                      · exact absurd h hm
                      · exact absurd h hp
                      · injection hsess with he
                        subst he
                        rw [hst] at hstok
                        exact Option.noConfusion hstok
                | some s =>
                    have heval := csrfProtection_tokens req sess c s hm hp hs hc hst
                    by_cases hlen : c.length = s.length
                    · by_cases hceq : c = s
                      · have hts : timingSafeEqual c s = Except.ok true := by
                          unfold timingSafeEqual
                          rw [if_pos hlen]
                          subst hceq
                          simp
                        rw [heval, hts]
                        constructor
                        · intro _
                          exact Or.inr (Or.inr ⟨sess, c, rfl, rfl, by
                            rw [hst, hceq]⟩)
                        · intro _; rfl
                      · have hts : timingSafeEqual c s = Except.ok false := by
                          unfold timingSafeEqual
                          rw [if_pos hlen, beq_eq_false_iff_ne.mpr hceq]
                        rw [heval, hts]
                        constructor
                        · intro h; exact CsrfOutcome.noConfusion h
                        · rintro (h | h | ⟨sess2, tok, hsess, htok, hstok⟩)
                          · exact absurd h hm
                          · exact absurd h hp
                          · injection hsess with he
                            subst he
                            injection htok with he2
                            rw [hst] at hstok
                            injection hstok with he3
                            exact absurd (he2.trans he3.symm) hceq
                    · have hts : timingSafeEqual c s = Except.error () := by
                        unfold timingSafeEqual
                        rw [if_neg hlen]
                      rw [heval, hts]
                      constructor
                      · intro h; exact CsrfOutcome.noConfusion h
                      · rintro (h | h | ⟨sess2, tok, hsess, htok, hstok⟩)
                        · exact absurd h hm
                        · exact absurd h hp
                        · injection hsess with he
                          subst he
                          injection htok with he2
                          rw [hst] at hstok
                          injection hstok with he3
                          exact absurd (by rw [he2, he3] :
                            c.length = s.length) hlen
  · intro sess c s hsess hm hp hc hst hlen hne
    have hm2 : ¬ safeMethods.contains req.method = true := by
      rw [hm]; exact Bool.false_ne_true
    have hp2 : ¬ skipPaths.any (fun p => startsWithModel req.path p) = true := by
      rw [hp]; exact Bool.false_ne_true
    have heval := csrfProtection_tokens req sess c s hm2 hp2 hsess hc hst
    have hts : timingSafeEqual c s = Except.ok false := by
      unfold timingSafeEqual
      rw [if_pos hlen, beq_eq_false_iff_ne.mpr hne]
    rw [heval, hts]

/-- sessionA and sessionB hold distinct stored CSRF tokens of equal
length, modelling two different sessions. -/
def sessionA : SessionData where
  csrfToken := some [10, 11, 12, 13]

def sessionB : SessionData where
  csrfToken := some [20, 21, 22, 23]

/-- crossSessionReq submits the token stored on sessionA against
sessionB. -/
def crossSessionReq : CsrfRequest where
  method := "POST"
  path := "/api/grants"
  headerCsrf := some [10, 11, 12, 13]
  bodyCsrf := none
  session := some sessionB

theorem csrf_guard_characterization_witness :
    csrfProtection crossSessionReq =
      CsrfOutcome.forbidden "Invalid CSRF token" :=
  (csrf_guard_characterization crossSessionReq).2 sessionB
    [10, 11, 12, 13] [20, 21, 22, 23] rfl (by decide) (by decide) rfl rfl
    (by decide) (by decide)

/-- mismatchedLengthReq is a state-changing, non-allow-listed request
whose supplied token has a byte length different from the token stored on
its session. -/
def mismatchedLengthReq : CsrfRequest where
  method := "POST"
  path := "/api/grants"
  headerCsrf := some [1, 2, 3]
  bodyCsrf := none
  session := some { csrfToken := some [1, 2, 3, 4] }

/-- C9 (confirmed): on a supplied token whose byte length differs from the
stored session token, the comparison throws instead of producing the 403
mismatch response, so the mismatch branch is not the only non-success
outcome. -/
theorem csrf_length_mismatch_throws :
    csrfProtection mismatchedLengthReq = CsrfOutcome.exception ∧
    timingSafeEqual [1, 2, 3] [1, 2, 3, 4] = Except.error () ∧
    CsrfOutcome.exception ≠ CsrfOutcome.forbidden "Invalid CSRF token" :=
  ⟨by decide, rfl, fun h => CsrfOutcome.noConfusion h⟩

/-- Claims is the decoded JWT payload slice read by auth.js: the user id
looked up in the database. -/
structure Claims where
  id : Nat
deriving DecidableEq

/-- TokenState classifies the presented access token the way the
jsonwebtoken library does: malformed bytes, a signature that does not
verify, a signature that verifies but an expired timestamp, or a fully
valid token carrying claims. -/
inductive TokenState where
  | malformed
  | badSignature
  | expired
  | valid (claims : Claims)
deriving DecidableEq

/-- VerifyOutcome is the result of jwt.verify as observed by the catch
branch of auth.js: decoded claims, a JsonWebTokenError or a
TokenExpiredError. -/
inductive VerifyOutcome where
  | ok (claims : Claims)
  | jsonWebTokenError
  | tokenExpiredError
deriving DecidableEq

/-- jwtVerify models the documented behaviour of the external
jsonwebtoken library call in auth.js: malformed tokens and bad signatures
throw JsonWebTokenError, expiry throws TokenExpiredError, and a valid
token decodes to its claims. -/
def jwtVerify : TokenState → VerifyOutcome
  | TokenState.malformed => VerifyOutcome.jsonWebTokenError
  | TokenState.badSignature => VerifyOutcome.jsonWebTokenError
  | TokenState.expired => VerifyOutcome.tokenExpiredError
  | TokenState.valid c => VerifyOutcome.ok c

/-- AuthOutcome is what the middleware does with the request: attach the
user and continue, or send a response with a status code, error label and
message. -/
inductive AuthOutcome where
  | success (user : UserDoc)
  | respond (status : Nat) (error message : String)
deriving DecidableEq

/-- authenticate mirrors AuthMiddleware.authenticate of auth.js: Bearer
header check, jwt.verify with its two catch-branch error mappings, the
User.findById database lookup, the isActive check and the
isAccountLocked check. -/
def authenticate (now : Int) (authHeader : Option String)
    (tok : TokenState) (findById : Nat → Option UserDoc) : AuthOutcome :=
  match authHeader with
  | none => AuthOutcome.respond 401 "Unauthorized" "Access token is required"
  | some h =>
    if !(startsWithModel h "Bearer ") then
      AuthOutcome.respond 401 "Unauthorized" "Access token is required"
    else
      match jwtVerify tok with
      | VerifyOutcome.jsonWebTokenError =>
          AuthOutcome.respond 401 "Unauthorized" "Invalid access token"
      | VerifyOutcome.tokenExpiredError =>
          AuthOutcome.respond 401 "Unauthorized" "Access token has expired"
      | VerifyOutcome.ok claims =>
          match findById claims.id with
          | none =>
              AuthOutcome.respond 401 "Unauthorized" "Invalid access token"
          | some user =>
              if !user.isActive then
                AuthOutcome.respond 401 "Unauthorized" "Account is not active"
              else if isAccountLocked now user then
                AuthOutcome.respond 423 "Account Locked"
                  "Account is temporarily locked"
              else
                AuthOutcome.success user

/-- C1 (counterexample): under the same well-formed Bearer header, a
bad-signature token and an expired token produce responses with different
messages, so the response does reveal that the expiry check failed. -/
theorem token_failure_reveals_expiry :
    authenticate 0 (some "Bearer abc") TokenState.badSignature
      (fun _ => none) =
      AuthOutcome.respond 401 "Unauthorized" "Invalid access token" ∧
    authenticate 0 (some "Bearer abc") TokenState.expired (fun _ => none) =
      AuthOutcome.respond 401 "Unauthorized" "Access token has expired" ∧
    authenticate 0 (some "Bearer abc") TokenState.badSignature
      (fun _ => none) ≠
      authenticate 0 (some "Bearer abc") TokenState.expired
        (fun _ => none) := by
  refine ⟨by decide, by decide, by decide⟩

/-- C1 (amended): every malformed, bad-signature or expired token is
rejected with status 401, and malformed tokens are indistinguishable from
bad signatures; an expired timestamp, however, is answered with a distinct
message, so expiry is revealed to the caller. -/
theorem token_failure_uniformity (now : Int) (h : String)
    (db : Nat → Option UserDoc)
    (hb : startsWithModel h "Bearer " = true) :
    authenticate now (some h) TokenState.malformed db =
      AuthOutcome.respond 401 "Unauthorized" "Invalid access token" ∧
    authenticate now (some h) TokenState.badSignature db =
      AuthOutcome.respond 401 "Unauthorized" "Invalid access token" ∧
    authenticate now (some h) TokenState.expired db =
      AuthOutcome.respond 401 "Unauthorized" "Access token has expired" := by
  refine ⟨?_, ?_, ?_⟩ <;> simp [authenticate, hb, jwtVerify]

theorem token_failure_uniformity_witness :
    authenticate 7 (some "Bearer xyz") TokenState.malformed (fun _ => none) =
      AuthOutcome.respond 401 "Unauthorized" "Invalid access token" ∧
    authenticate 7 (some "Bearer xyz") TokenState.badSignature
      (fun _ => none) =
      AuthOutcome.respond 401 "Unauthorized" "Invalid access token" ∧
    authenticate 7 (some "Bearer xyz") TokenState.expired (fun _ => none) =
      AuthOutcome.respond 401 "Unauthorized" "Access token has expired" :=
  token_failure_uniformity 7 "Bearer xyz" (fun _ => none) (by decide)

/-- inactiveUser agrees with freshUser on every field except the active
flag. -/
def inactiveUser : UserDoc := { freshUser with isActive := false }

/-- C2 (counterexample): with the very same valid, unexpired credential,
the outcome of authenticate changes with the state of the user database:
an active user passes, a deactivated user is rejected 401 on this very
request — so the middleware does consult the database and deactivation
does not wait for the next issuance boundary. -/
theorem authenticate_depends_on_database :
    authenticate 0 (some "Bearer abc") (TokenState.valid ⟨1⟩)
      (fun _ => some freshUser) = AuthOutcome.success freshUser ∧
    authenticate 0 (some "Bearer abc") (TokenState.valid ⟨1⟩)
      (fun _ => some inactiveUser) =
      AuthOutcome.respond 401 "Unauthorized" "Account is not active" ∧
    inactiveUser = { freshUser with isActive := false } := by
  refine ⟨by decide, by decide, rfl⟩

/-- C2 (amended): authenticating a request verifies signature and expiry
and then re-loads the user by id from the database: a missing user and an
inactive user are rejected 401, a locked user 423, and only an existing,
active, unlocked user authenticates — deactivation and lockout therefore
take effect on the next authenticated request, not only at the next
issuance boundary. -/
theorem authenticate_consults_database (now : Int) (h : String) (c : Claims)
    (db : Nat → Option UserDoc)
    (hb : startsWithModel h "Bearer " = true) :
    (db c.id = none →
      authenticate now (some h) (TokenState.valid c) db =
        AuthOutcome.respond 401 "Unauthorized" "Invalid access token") ∧
    (∀ u, db c.id = some u → u.isActive = false →
      authenticate now (some h) (TokenState.valid c) db =
        AuthOutcome.respond 401 "Unauthorized" "Account is not active") ∧
    (∀ u, db c.id = some u → u.isActive = true →
      isAccountLocked now u = true →
      authenticate now (some h) (TokenState.valid c) db =
        AuthOutcome.respond 423 "Account Locked"
          "Account is temporarily locked") ∧
    (∀ u, db c.id = some u → u.isActive = true →
      isAccountLocked now u = false →
      authenticate now (some h) (TokenState.valid c) db =
        AuthOutcome.success u) := by
  refine ⟨?_, ?_, ?_, ?_⟩
  · intro hdb
    simp [authenticate, hb, jwtVerify, hdb]
  · intro u hdb hact
    simp [authenticate, hb, jwtVerify, hdb, hact]
  · intro u hdb hact hlock
    simp [authenticate, hb, jwtVerify, hdb, hact, hlock]
  · intro u hdb hact hlock
    simp [authenticate, hb, jwtVerify, hdb, hact, hlock]

theorem authenticate_consults_database_witness :
    authenticate 0 (some "Bearer abc") (TokenState.valid ⟨1⟩)
      (fun _ => some freshUser) = AuthOutcome.success freshUser :=
  (authenticate_consults_database 0 "Bearer abc" ⟨1⟩
    (fun _ => some freshUser) (by decide)).2.2.2 freshUser rfl rfl rfl

/-- Modelled from the spec: the ClientCredentialManager single-flight
refresh queue of spec section 4.5.  The composable implementing it is not
among the sources; the refreshPromise snippet documented in
src/frontend/src/composables/AUTH.DOCS.md is the reference.  The state
between event-loop turns is the in-flight refresh promise, identified by
the index of the network call that created it, together with the count of
network refresh calls started so far. -/
structure RefreshManager where
  refreshPromise : Option Nat
  callsStarted : Nat
deriving DecidableEq

/-- refreshToken models one caller entering the documented refreshToken
function: when a refresh promise is already in flight it is returned
unchanged, otherwise a new network call starts, its promise is stored and
returned. -/
def refreshToken (m : RefreshManager) : RefreshManager × Nat :=
  match m.refreshPromise with
  | some p => (m, p)
  | none =>
      ({ refreshPromise := some m.callsStarted,
         callsStarted := m.callsStarted + 1 }, m.callsStarted)

/-- concurrentRefreshCalls runs k callers that all observe the expired
credential in the same event-loop window, before the in-flight refresh
resolves; it returns the final manager state and the promise each caller
awaits. -/
def concurrentRefreshCalls : Nat → RefreshManager → RefreshManager × List Nat
  | 0, m => (m, [])
  | k + 1, m =>
      let r := refreshToken m
      let rest := concurrentRefreshCalls k r.1
      (rest.1, r.2 :: rest.2)

theorem concurrentRefreshCalls_inflight (k p c : Nat) :
    concurrentRefreshCalls k
        { refreshPromise := some p, callsStarted := c } =
      ({ refreshPromise := some p, callsStarted := c },
        List.replicate k p) := by
  induction k with
  | zero => rfl
  | succ k ih =>
      simp [concurrentRefreshCalls, refreshToken, ih, List.replicate_succ]

/-- C7 (confirmed): for k concurrent callers that all observe the expired
credential before any refresh resolves, exactly one network refresh call
is started, every caller awaits that same call, and mapping any outcome
function over the awaited promises yields the same outcome for all k
callers — all succeed with the one new credential or all fail
identically. -/
theorem single_flight_refresh (k n : Nat) {α : Type} (resolve : Nat → α)
    (hk : 1 ≤ k) :
    (concurrentRefreshCalls k
      { refreshPromise := none, callsStarted := n }).1.callsStarted =
        n + 1 ∧
    (concurrentRefreshCalls k
      { refreshPromise := none, callsStarted := n }).2 =
        List.replicate k n ∧
    ((concurrentRefreshCalls k
      { refreshPromise := none, callsStarted := n }).2).map resolve =
        List.replicate k (resolve n) := by
  obtain ⟨j, rfl⟩ : ∃ j, k = j + 1 := ⟨k - 1, by omega⟩
  refine ⟨?_, ?_, ?_⟩ <;>
    simp [concurrentRefreshCalls, refreshToken,
      concurrentRefreshCalls_inflight, List.replicate_succ,
      List.map_replicate]

theorem single_flight_refresh_witness :
    (concurrentRefreshCalls 3
      { refreshPromise := none, callsStarted := 0 }).1.callsStarted =
        0 + 1 ∧
    (concurrentRefreshCalls 3
      { refreshPromise := none, callsStarted := 0 }).2 =
        List.replicate 3 0 ∧
    ((concurrentRefreshCalls 3
      { refreshPromise := none, callsStarted := 0 }).2).map Nat.succ =
        List.replicate 3 (Nat.succ 0) :=
  single_flight_refresh 3 0 Nat.succ (by decide)

end Starter
